import Mathlib

/-!
# Verification of the uWebSockets connection core (`src/uWebSockets/src/WebSocket.cpp`)

A shallow embedding of the per-connection WebSocket engine: buffers are
`List Nat` of byte values, the connection object is an explicit `WSState`
record, and every externally visible effect (handler dispatch, formatted
frames handed to the write queue, completion callbacks, socket teardown)
is recorded as an `Event` in a trace returned next to the new state.

The server instantiation is modelled (`WebSocket<SERVER>`); the client
template differs only in the masking direction of the frame codec, which
none of the verified properties touch.

External collaborators that live outside `WebSocket.cpp` (the hub
deflate/inflate, the UTF-8 validator, the streaming frame parser, the
write queue drain behaviour, SHA-1) are modelled from the spec where
needed; each such definition carries a doc comment saying so.
-/

namespace UWS

/-- Byte values of a string literal (ASCII code points). -/
def strBytes (s : String) : List Nat := s.toList.map Char.toNat

/-! ## SHA-1 (external primitive)

Modelled from the spec: the spec (§1, §4.9) treats SHA-1 as an external
collaborator invoked by the upgrade formatter.  This is the standard
FIPS 180-1 SHA-1 over a byte list, written with `Nat` arithmetic and
explicit `% 2^32` reductions. -/

/-- 32-bit left rotation (input assumed `< 2^32`). -/
def rotl32 (k x : Nat) : Nat := ((x <<< k) + (x >>> (32 - k))) % 4294967296

/-- Big-endian 8-byte encoding of a natural number. -/
def bytesBE8 (n : Nat) : List Nat :=
  [n >>> 56 % 256, n >>> 48 % 256, n >>> 40 % 256, n >>> 32 % 256,
   n >>> 24 % 256, n >>> 16 % 256, n >>> 8 % 256, n % 256]

/-- Big-endian 4-byte encoding of a 32-bit word. -/
def bytesBE4 (n : Nat) : List Nat :=
  [n >>> 24 % 256, n >>> 16 % 256, n >>> 8 % 256, n % 256]

/-- SHA-1 message padding: `0x80`, zeros to 56 mod 64, 8-byte bit length. -/
def sha1pad (msg : List Nat) : List Nat :=
  msg ++ [128] ++ List.replicate ((119 - msg.length % 64) % 64) 0 ++ bytesBE8 (msg.length * 8)

/-- Split a list into chunks of 64 bytes (fuel-structured so the kernel
can reduce it; `fuel = l.length` always suffices since each step consumes
at least one element). -/
def chunks64go : Nat → List Nat → List (List Nat)
  | 0, _ => []
  | _, [] => []
  | fuel + 1, a :: l => (a :: l).take 64 :: chunks64go fuel ((a :: l).drop 64)

/-- Split a list into chunks of 64 bytes. -/
def chunks64 (l : List Nat) : List (List Nat) := chunks64go l.length l

/-- The 16 initial 32-bit words (big-endian) of a 64-byte chunk. -/
def chunkWords (c : List Nat) : List Nat :=
  (List.range 16).map fun i =>
    c.getD (4 * i) 0 <<< 24 + c.getD (4 * i + 1) 0 <<< 16 +
    c.getD (4 * i + 2) 0 <<< 8 + c.getD (4 * i + 3) 0

/-- Extend 16 words to 80 by the SHA-1 recurrence. -/
def extendW : Nat → List Nat → List Nat
  | 0, w => w
  | k + 1, w =>
    extendW k (w ++ [rotl32 1 (w.getD (w.length - 3) 0 ^^^ w.getD (w.length - 8) 0 ^^^
                               w.getD (w.length - 14) 0 ^^^ w.getD (w.length - 16) 0)])

/-- One SHA-1 round: state `(a,b,c,d,e)`, round index `i`, schedule word `w`. -/
def sha1round (st : Nat × Nat × Nat × Nat × Nat) (iw : Nat × Nat) : Nat × Nat × Nat × Nat × Nat :=
  let (a, b, c, d, e) := st
  let (i, w) := iw
  let f :=
    if i < 20 then (b &&& c) ||| ((b ^^^ 4294967295) &&& d)
    else if i < 40 then b ^^^ c ^^^ d
    else if i < 60 then (b &&& c) ||| (b &&& d) ||| (c &&& d)
    else b ^^^ c ^^^ d
  let k :=
    if i < 20 then 1518500249
    else if i < 40 then 1859775393
    else if i < 60 then 2400959708
    else 3395469782
  let temp := (rotl32 5 a + f + e + k + w) % 4294967296
  (temp, a, rotl32 30 b, c, d)

/-- Process one 64-byte chunk, updating the five hash words. -/
def sha1chunk (h : Nat × Nat × Nat × Nat × Nat) (c : List Nat) : Nat × Nat × Nat × Nat × Nat :=
  let (h0, h1, h2, h3, h4) := h
  let ws := extendW 64 (chunkWords c)
  let (a, b, c', d, e) := ((List.range 80).zip ws).foldl (fun st iw => sha1round st iw) (h0, h1, h2, h3, h4)
  ((h0 + a) % 4294967296, (h1 + b) % 4294967296, (h2 + c') % 4294967296,
   (h3 + d) % 4294967296, (h4 + e) % 4294967296)

/-- SHA-1 of a byte list, as the 20-byte big-endian digest. -/
def sha1 (msg : List Nat) : List Nat :=
  let (h0, h1, h2, h3, h4) :=
    (chunks64 (sha1pad msg)).foldl sha1chunk (1732584193, 4023233417, 2562383102, 271733878, 3285377520)
  bytesBE4 h0 ++ bytesBE4 h1 ++ bytesBE4 h2 ++ bytesBE4 h3 ++ bytesBE4 h4

/-! ## base64 (from `WebSocket.cpp` lines 291–303)

The fixed-size base64 of the source for the 20-byte SHA-1 digest: six
groups of three bytes, then the final two bytes with one `=` pad. -/

/-- The base64 alphabet table `b64` from the source. -/
def b64tab : List Nat := strBytes "ABCDEFGHIJKLMNOPQRSTUVWXYZabcdefghijklmnopqrstuvwxyz0123456789+/"

/-- The function `base64(src, dst)` from the source, specialised as it is
there to a 20-byte input (six full 3-byte groups and a final 2-byte
group). -/
def base64 (src : List Nat) : List Nat :=
  ((List.range 6).flatMap fun j =>
    let i := 3 * j
    [b64tab.getD ((src.getD i 0 >>> 2) &&& 63) 0,
     b64tab.getD (((src.getD i 0 &&& 3) <<< 4) ||| ((src.getD (i + 1) 0 &&& 240) >>> 4)) 0,
     b64tab.getD (((src.getD (i + 1) 0 &&& 15) <<< 2) ||| ((src.getD (i + 2) 0 &&& 192) >>> 6)) 0,
     b64tab.getD (src.getD (i + 2) 0 &&& 63) 0]) ++
  [b64tab.getD ((src.getD 18 0 >>> 2) &&& 63) 0,
   b64tab.getD (((src.getD 18 0 &&& 3) <<< 4) ||| ((src.getD 19 0 &&& 240) >>> 4)) 0,
   b64tab.getD ((src.getD 19 0 &&& 15) <<< 2) 0,
   61]

/-! ## Upgrade response (from `WebSocket.cpp` lines 305–355)

`upgrade` is modelled as the byte content of the single queued response
message (`allocMessage(upgradeResponseLength, upgradeBuffer)`); the
write/queue plumbing below it is the generic write path. -/

/-- The RFC 6455 GUID baked into `shaInput`. -/
def guid : List Nat := strBytes "258EAFA5-E914-47DA-95CA-C5AB0DC85B11"

/-- The `Sec-WebSocket-Accept` value: base64 of SHA-1 over the 24 key
bytes (`memcpy(shaInput, secKey, 24)`) followed by the GUID. -/
def secWebSocketAccept (secKey : List Nat) : List Nat :=
  base64 (sha1 (secKey.take 24 ++ guid))

/-- The first comma-delimited token of the offered subprotocol list
(the loop at lines 327–332 truncates `subprotocolLength` at the first
comma, byte 44). -/
def firstToken (subprotocol : List Nat) : List Nat :=
  subprotocol.takeWhile (fun c => c ≠ 44)

/-- Embedding of `WebSocket<isServer>::upgrade`: the queued 101 response, as the exact
byte sequence the source assembles in `upgradeBuffer`. -/
def upgrade (secKey extensionsResponse subprotocol : List Nat) : List Nat :=
  strBytes "HTTP/1.1 101 Switching Protocols\r\nUpgrade: websocket\r\nConnection: Upgrade\r\nSec-WebSocket-Accept: " ++
  secWebSocketAccept secKey ++ strBytes "\r\n" ++
  (if 0 < extensionsResponse.length ∧ extensionsResponse.length < 200 then
    strBytes "Sec-WebSocket-Extensions: " ++ extensionsResponse ++ strBytes "\r\n"
  else []) ++
  (if 0 < (firstToken subprotocol).length ∧ (firstToken subprotocol).length < 200 then
    strBytes "Sec-WebSocket-Protocol: " ++ firstToken subprotocol ++ strBytes "\r\n"
  else []) ++
  strBytes "Sec-WebSocket-Version: 13\r\nWebSocket-Server: uWebSockets\r\n\r\n"

/-! ## Connection state machine -/

/-- The enum `WebSocket<isServer>::CompressionStatus`. -/
inductive CompressionStatus where
  | DISABLED
  | ENABLED
  | COMPRESSED_FRAME
  deriving DecidableEq, Repr

/-- The completion callback of a pending send, as an inspectable tag:
`noCallback` is the C++ null pointer, `user i` an application callback
identified by `i`, `shutdownOnDrain` the lambda `close` installs
(`if (!cancelled) p->shutdown();`, lines 147–151). -/
inductive Callback where
  | noCallback
  | user (id : Nat)
  | shutdownOnDrain
  deriving DecidableEq, Repr

/-- Externally visible effects, recorded in order of occurrence. -/
inductive Event where
  /-- Dispatch `group->messageHandler(webSocket, data, length, opCode)`. -/
  | message (data : List Nat) (length : Nat) (opCode : Nat)
  /-- Dispatch `group->pingHandler(webSocket, data, length)`. -/
  | ping (data : List Nat)
  /-- Dispatch `group->pongHandler(webSocket, data, length)`. -/
  | pong (data : List Nat)
  /-- Dispatch `group->disconnectionHandler(webSocket, code, nullptr, 0)`. -/
  | disconnection (code : Nat)
  /-- Call of `Group::removeWebSocket(webSocket)`. -/
  | removedFromGroup
  /-- Call of `closeSocket()`: the transport socket is closed. -/
  | socketClosed
  /-- Call of `p->shutdown()`: half-close of the write side. -/
  | socketShutdown
  /-- A formatted frame handed to the write path (`formatMessage` output). -/
  | frameOut (frame : List Nat)
  /-- A completion callback ran: id, `cancelled`, and whether the
  connection argument was null. -/
  | callbackRun (id : Nat) (cancelled : Bool) (connIsNull : Bool)
  /-- Marker that `forceClose(webSocketState)` was entered. -/
  | forceClosed
  /-- Marker that `hub->inflate(buffer.data(), length, maxPayload)` ran while
  the buffer held `buffer` bytes; the codec consumes the first `length`
  of them. -/
  | inflateCall (buffer : List Nat) (length : Nat)
  deriving DecidableEq, Repr

/-- An entry of the write queue of a connection (`Queue::Message`): the
formatted frame bytes and the completion callback. -/
structure QMessage where
  frame : List Nat
  callback : Callback
  deriving DecidableEq, Repr

/-- The per-connection state of `WebSocket<isServer>` (server role). -/
structure WSState where
  compressionStatus : CompressionStatus
  fragmentBuffer : List Nat
  controlTipLength : Nat
  closed : Bool
  shuttingDown : Bool
  hasOutstandingPong : Bool
  messageQueue : List QMessage
  /-- presence of the per-connection `z_stream` sliding window -/
  slidingDeflateWindow : Bool
  deriving DecidableEq, Repr

/-- External collaborators reached through the group and its hub.
`inflate`, `deflate` and `isValidUtf8` are modelled from the spec (§4.7,
§2 Utf8Validator): they live in `Hub.cpp` / `WebSocketProtocol.h`, which
are not part of the given source; only their call sites are.
`syncDrain` models whether the socket drains a write synchronously
(spec §4.8 behaviours (1) vs (2)). -/
structure Env where
  maxPayload : Nat
  /-- Model of `Hub::inflate(data, length, maxPayload)`: `none` on failure or
  when the inflated size exceeds `maxPayload`. -/
  inflate : List Nat → Nat → Option (List Nat)
  /-- Model of `Hub::deflate(data, length, slidingDeflateWindow)`: total; returns
  the deflated bytes with the sync tail stripped. -/
  deflate : List Nat → List Nat
  /-- Model of `WebSocketProtocol::isValidUtf8(data, length)`. -/
  isValidUtf8 : List Nat → Bool
  /-- whether the socket accepts the whole buffer synchronously -/
  syncDrain : Bool

/-- Run a completion callback (`callback(conn, data, cancelled, reserved)`)
as trace events. -/
def runCallback (cb : Callback) (cancelled : Bool) (connIsNull : Bool) : List Event :=
  match cb with
  | Callback.noCallback => []
  | Callback.user i => [Event.callbackRun i cancelled connIsNull]
  | Callback.shutdownOnDrain => if cancelled then [] else [Event.socketShutdown]

/-! ## Frame codec (`WebSocketProtocol.h`, modelled from the spec §4.1) -/

/-- Modelled from the spec (§4.1): `formatMessage` for the server role
(mask flag 0, no masking).  First byte `FIN | RSV1 (if compressed and
opcode < 3) | opcode`; 7-bit length, or `0x7E` + 16-bit, or `0x7F` +
64-bit big-endian extended length; then `length` payload bytes. -/
def formatMessage (src : List Nat) (length : Nat) (opCode : Nat) (compressed : Bool) : List Nat :=
  let b0 := 128 + (if compressed ∧ opCode < 3 then 64 else 0) + opCode
  let lenField :=
    if length < 126 then [length]
    else if length < 65536 then [126, length >>> 8 % 256, length % 256]
    else [127, length >>> 56 % 256, length >>> 48 % 256, length >>> 40 % 256,
          length >>> 32 % 256, length >>> 24 % 256, length >>> 16 % 256,
          length >>> 8 % 256, length % 256]
  b0 :: lenField ++ src.take length

/-- Header size of a server frame with payload length `length`. -/
def headerLength (length : Nat) : Nat :=
  if length < 126 then 2 else if length < 65536 then 4 else 10

/-- Modelled from the spec (§4.1): `formatClosePayload` — two big-endian
status bytes then up to `length` reason bytes; empty when `code = 0`. -/
def formatClosePayload (code : Nat) (message : List Nat) (length : Nat) : List Nat :=
  if code = 0 then [] else [code >>> 8 % 256, code % 256] ++ message.take length

/-- Modelled from the spec (§4.1): `parseClosePayload` — code 1005 and
empty message when fewer than two bytes, else big-endian code and the
remainder as message. -/
def parseClosePayload (data : List Nat) : Nat × List Nat :=
  if data.length < 2 then (1005, [])
  else (data.getD 0 0 <<< 8 + data.getD 1 0, data.drop 2)

/-! ## send (`WebSocket.cpp` lines 26–63) -/

/-- Embedding of `WebSocketTransformer::transform` (lines 52–59): the frame written
into the output buffer.  `doCompress` is `transformData.compress`;
`Hub::deflate` updates the length reference, so the compressed frame is
formatted over the deflated bytes and their length. -/
def wsTransform (env : Env) (src : List Nat) (opCode : Nat) (doCompress : Bool) : List Nat :=
  if doCompress then
    formatMessage (env.deflate src) (env.deflate src).length opCode true
  else
    formatMessage src src.length opCode false

/-- Embedding of `WebSocket<isServer>::send`.  The guard on a closed connection is the
thread-safe mode check (lines 31–36; spec §4.3 "If `closed`, invoke
callback with `cancelled=true` and return").  The tail of the function is
`sendTransformed`, modelled from the spec (§4.3, §4.8): format via the
transformer, then either drain synchronously — invoking the callback with
`cancelled=false` — or retain the message and its callback in the write
queue. -/
def wsSend (env : Env) (s : WSState) (message : List Nat) (opCode : Nat)
    (callback : Callback) (compress : Bool) : WSState × List Event :=
  if s.closed then
    (s, runCallback callback true false)
  else
    let doCompress := compress ∧ s.compressionStatus = CompressionStatus.ENABLED ∧ opCode < 3
    let frame := wsTransform env message opCode doCompress
    if env.syncDrain then
      (s, Event.frameOut frame :: runCallback callback false false)
    else
      ({ s with messageQueue := s.messageQueue ++ [⟨frame, callback⟩] }, [Event.frameOut frame])

/-! ## onEnd / terminate / close (`WebSocket.cpp` lines 87–182) -/

/-- Embedding of `WebSocket<isServer>::onEnd` (lines 156–182): remove from group,
fire `disconnectionHandler`, close the socket, drain the message queue
invoking each pending callback with `cancelled=true` and a null
connection, and release the sliding deflate window. -/
def onEnd (s : WSState) (code : Nat) : WSState × List Event :=
  ({ s with closed := true, messageQueue := [], slidingDeflateWindow := false },
   [Event.removedFromGroup, Event.disconnection code, Event.socketClosed] ++
   s.messageQueue.flatMap (fun m => runCallback m.callback true true))

/-- Embedding of `WebSocket<isServer>::terminate` (lines 87–98): `onEnd(this)` with
the default close code, 1006 per spec §4.5. -/
def terminate (s : WSState) : WSState × List Event := onEnd s 1006

/-- Modelled from the spec (glossary "ForceClose", §4.2): engine-initiated
teardown without a CLOSE frame; `WebSocketProtocol::forceClose` lives in
the protocol header, not in the given source, and terminates the
connection. -/
def forceClose (s : WSState) : WSState × List Event :=
  ((terminate s).1, Event.forceClosed :: (terminate s).2)

/-- Embedding of `WebSocket<isServer>::close` (lines 139–154): clamp the reason length
to 123, set `shuttingDown`, send a CLOSE frame whose completion callback
half-closes the socket when not cancelled, then immediately `onEnd`. -/
def wsClose (env : Env) (s : WSState) (code : Nat) (message : List Nat) (length : Nat) :
    WSState × List Event :=
  let length := min 123 length
  let s1 := { s with shuttingDown := true }
  let closePayload := formatClosePayload code message length
  let r1 := wsSend env s1 closePayload 8 Callback.shutdownOnDrain false
  let r2 := onEnd r1.1 code
  (r2.1, r1.2 ++ r2.2)

/-! ## handleFragment (`WebSocket.cpp` lines 184–289) -/

/-- Result of `handleFragment`: new state, the returned `bool`
(`true` stops further consumption), and the emitted events. -/
structure HFResult where
  s : WSState
  stop : Bool
  trace : List Event
  deriving Repr

/-- The shared tail of both data-frame paths: UTF-8 validation of a TEXT
payload (forceClose on failure, no dispatch), then `messageHandler`
dispatch, then the `isClosed() || isShuttingDown()` re-check; on the
buffered path (`clearAfter`) the fragment buffer is cleared after a
dispatch that survives the re-check (lines 200–208 and 225–234). -/
def dispatchMessage (env : Env) (s : WSState) (d : List Nat) (opCode : Nat)
    (pre : List Event) (clearAfter : Bool) : HFResult :=
  if opCode = 1 ∧ ¬ env.isValidUtf8 d then
    ⟨(forceClose s).1, true, pre ++ (forceClose s).2⟩
  else
    let t := pre ++ [Event.message d d.length opCode]
    if s.closed ∨ s.shuttingDown then ⟨s, true, t⟩
    else if clearAfter then ⟨{ s with fragmentBuffer := [] }, false, t⟩
    else ⟨s, false, t⟩

/-- The resize `fragmentBuffer.resize(fragmentBuffer.length() - controlTipLength)`
followed by `controlTipLength = 0` (lines 282–283). -/
def shrinkControlTip (s : WSState) : WSState :=
  { s with
    fragmentBuffer := s.fragmentBuffer.take (s.fragmentBuffer.length - s.controlTipLength),
    controlTipLength := 0 }

/-- Embedding of `WebSocket<isServer>::handleFragment`.  Handlers are modelled as pure
observers (trace events); the post-dispatch `isClosed/isShuttingDown`
re-checks therefore read the state as it was going into the dispatch. -/
def handleFragment (env : Env) (s : WSState) (data : List Nat)
    (remainingBytes : Nat) (opCode : Nat) (fin : Bool) : HFResult :=
  if opCode < 3 then
    if remainingBytes = 0 ∧ fin ∧ s.fragmentBuffer.length = 0 then
      if s.compressionStatus = CompressionStatus.COMPRESSED_FRAME then
        let s := { s with compressionStatus := CompressionStatus.ENABLED }
        match env.inflate data env.maxPayload with
        | none =>
          ⟨(forceClose s).1, true, Event.inflateCall data data.length :: (forceClose s).2⟩
        | some d =>
          dispatchMessage env s d opCode [Event.inflateCall data data.length] false
      else
        dispatchMessage env s data opCode [] false
    else
      let s := { s with fragmentBuffer := s.fragmentBuffer ++ data }
      if remainingBytes = 0 ∧ fin then
        let length := s.fragmentBuffer.length
        if s.compressionStatus = CompressionStatus.COMPRESSED_FRAME then
          let s := { s with
            compressionStatus := CompressionStatus.ENABLED,
            fragmentBuffer := s.fragmentBuffer ++ [46, 46, 46, 46] }
          match env.inflate (s.fragmentBuffer.take length) env.maxPayload with
          | none =>
            ⟨(forceClose s).1, true, Event.inflateCall s.fragmentBuffer length :: (forceClose s).2⟩
          | some d =>
            dispatchMessage env s d opCode [Event.inflateCall s.fragmentBuffer length] true
        else
          dispatchMessage env s s.fragmentBuffer opCode [] true
      else
        ⟨s, false, []⟩
  else
    if remainingBytes = 0 ∧ fin ∧ s.controlTipLength = 0 then
      if opCode = 8 then
        let cf := parseClosePayload data
        let r := wsClose env s cf.1 cf.2 cf.2.length
        ⟨r.1, true, r.2⟩
      else if opCode = 9 then
        let r1 := wsSend env s data 10 Callback.noCallback false
        let t := r1.2 ++ [Event.ping data]
        if r1.1.closed ∨ r1.1.shuttingDown then ⟨r1.1, true, t⟩ else ⟨r1.1, false, t⟩
      else if opCode = 10 then
        let t := [Event.pong data]
        if s.closed ∨ s.shuttingDown then ⟨s, true, t⟩ else ⟨s, false, t⟩
      else
        ⟨s, false, []⟩
    else
      let s := { s with
        fragmentBuffer := s.fragmentBuffer ++ data,
        controlTipLength := s.controlTipLength + data.length }
      if remainingBytes = 0 ∧ fin then
        let controlBuffer := s.fragmentBuffer.drop (s.fragmentBuffer.length - s.controlTipLength)
        if opCode = 8 then
          let cf := parseClosePayload controlBuffer
          let r := wsClose env s cf.1 cf.2 cf.2.length
          ⟨r.1, true, r.2⟩
        else if opCode = 9 then
          let r1 := wsSend env s controlBuffer 10 Callback.noCallback false
          let t := r1.2 ++ [Event.ping controlBuffer]
          if r1.1.closed ∨ r1.1.shuttingDown then ⟨r1.1, true, t⟩
          else ⟨shrinkControlTip r1.1, false, t⟩
        else if opCode = 10 then
          let t := [Event.pong controlBuffer]
          if s.closed ∨ s.shuttingDown then ⟨s, true, t⟩
          else ⟨shrinkControlTip s, false, t⟩
        else
          ⟨shrinkControlTip s, false, []⟩
      else
        ⟨s, false, []⟩

/-! ## onData (`WebSocket.cpp` lines 65–79) -/

/-- Embedding of `WebSocket<isServer>::onData`.  The streaming frame parser
`WebSocketProtocol::consume` lives in the protocol header, not in the
given source, so it is a parameter; `cork(true)/cork(false)` is
socket-layer write coalescing with no modelled effect. -/
def onData (consume : List Nat → WSState → WSState × List Event)
    (s : WSState) (data : List Nat) : WSState × List Event :=
  let s := { s with hasOutstandingPong := false }
  if ¬ s.shuttingDown then consume data s else (s, [])

/-! ## Spec-side reference definitions (for the refinement comparisons) -/

/-- The upgrade response as claim C8 words it, for comparison with
`upgrade`: identical except that the `Sec-WebSocket-Protocol` header is
emitted whenever a subprotocol list is offered (`subprotocol` nonempty),
with no condition on the length of the first token. -/
def upgradeClaimC8 (secKey extensionsResponse subprotocol : List Nat) : List Nat :=
  (strBytes "HTTP/1.1 101 Switching Protocols" ++ strBytes "\r\n" ++
   strBytes "Upgrade: websocket" ++ strBytes "\r\n" ++
   strBytes "Connection: Upgrade" ++ strBytes "\r\n" ++
   strBytes "Sec-WebSocket-Accept: ") ++
  secWebSocketAccept secKey ++ strBytes "\r\n" ++
  (if 0 < extensionsResponse.length ∧ extensionsResponse.length < 200 then
    strBytes "Sec-WebSocket-Extensions: " ++ extensionsResponse ++ strBytes "\r\n"
  else []) ++
  (if subprotocol ≠ [] then
    strBytes "Sec-WebSocket-Protocol: " ++ firstToken subprotocol ++ strBytes "\r\n"
  else []) ++
  (strBytes "Sec-WebSocket-Version: 13" ++ strBytes "\r\n" ++
   strBytes "WebSocket-Server: uWebSockets" ++ strBytes "\r\n" ++ strBytes "\r\n")

/-- The amended C8 layout, written line by line as in spec §6: as
`upgradeClaimC8` but a `Sec-WebSocket-Protocol` header is emitted exactly
when the first offered token is nonempty and shorter than 200 bytes (the
condition at line 333 of the source). -/
def upgradeSpecC8 (secKey extensionsResponse subprotocol : List Nat) : List Nat :=
  (strBytes "HTTP/1.1 101 Switching Protocols" ++ strBytes "\r\n" ++
   strBytes "Upgrade: websocket" ++ strBytes "\r\n" ++
   strBytes "Connection: Upgrade" ++ strBytes "\r\n" ++
   strBytes "Sec-WebSocket-Accept: ") ++
  secWebSocketAccept secKey ++ strBytes "\r\n" ++
  (if 0 < extensionsResponse.length ∧ extensionsResponse.length < 200 then
    strBytes "Sec-WebSocket-Extensions: " ++ extensionsResponse ++ strBytes "\r\n"
  else []) ++
  (if 0 < (firstToken subprotocol).length ∧ (firstToken subprotocol).length < 200 then
    strBytes "Sec-WebSocket-Protocol: " ++ firstToken subprotocol ++ strBytes "\r\n"
  else []) ++
  (strBytes "Sec-WebSocket-Version: 13" ++ strBytes "\r\n" ++
   strBytes "WebSocket-Server: uWebSockets" ++ strBytes "\r\n" ++ strBytes "\r\n")

/-! ## Concrete instances used by witnesses and counterexamples -/

/-- A concrete environment: inflate doubles its input, deflate prepends a
zero byte, UTF-8 validation rejects payloads containing byte 192, writes
drain synchronously. -/
def env0 : Env :=
  { maxPayload := 1024,
    inflate := fun d _ => some (d ++ d),
    deflate := fun d => 0 :: d,
    isValidUtf8 := fun d => d.all (fun b => b ≠ 192),
    syncDrain := true }

/-- As `env0` but writes stay queued (asynchronous drain). -/
def env0q : Env := { env0 with syncDrain := false }

/-- An environment whose inflate fails exactly when its input ends with
the four pad bytes the buffered path appends — it distinguishes whether
the pad is part of the bytes handed to inflate. -/
def padRejectingEnv : Env :=
  { env0 with
    inflate := fun d _ => if d.drop (d.length - 4) = [46, 46, 46, 46] then none else some d }

/-- An environment whose inflate always fails. -/
def envInflateFail : Env := { env0 with inflate := fun _ _ => none }

/-- A concrete live connection with permessage-deflate negotiated. -/
def s0 : WSState :=
  { compressionStatus := CompressionStatus.ENABLED,
    fragmentBuffer := [],
    controlTipLength := 0,
    closed := false,
    shuttingDown := false,
    hasOutstandingPong := false,
    messageQueue := [],
    slidingDeflateWindow := true }

end UWS

namespace UWS

-- ===== helper lemmas =====

theorem mem_drain (e : Event) (q : List QMessage)
    (h : e ∈ q.flatMap fun m => runCallback m.callback true true) :
    ∃ i, e = Event.callbackRun i true true := by
  simp only [List.mem_flatMap] at h
  obtain ⟨m, hm, he⟩ := h
  rcases m with ⟨f, cb⟩
  cases cb <;> simp [runCallback] at he
  exact ⟨_, he⟩

theorem message_not_in_drain (q : List QMessage) (d : List Nat) (l oc : Nat) :
    Event.message d l oc ∉ q.flatMap fun m => runCallback m.callback true true := by
  intro h
  obtain ⟨i, hi⟩ := mem_drain _ _ h
  cases hi

-- ===== C10 =====

/-- C10: when `shuttingDown` is set, `onData` clears `hasOutstandingPong`
and performs nothing else: the frame parser is not fed and no handler
event is emitted, whatever the parser would do. -/
theorem onData_shuttingDown_no_dispatch
    (consume : List Nat → WSState → WSState × List Event)
    (s : WSState) (data : List Nat) (h : s.shuttingDown = true) :
    onData consume s data = ({ s with hasOutstandingPong := false }, []) := by
  simp [onData, h]

/-- Witness for C10 at a concrete shutting-down connection and a consume
function that would dispatch a message. -/
theorem onData_shuttingDown_no_dispatch_witness :
    onData (fun d st => (st, [Event.message d d.length 2]))
        { s0 with shuttingDown := true, hasOutstandingPong := true } [1, 2, 3] =
      ({ s0 with shuttingDown := true, hasOutstandingPong := false }, []) :=
  onData_shuttingDown_no_dispatch _ _ _ rfl

-- ===== C2 =====

/-- C2: a send on a closed connection invokes the callback with
`cancelled = true` (and a non-null connection) and changes nothing,
enqueueing no bytes; `close` and `terminate` leave the connection closed,
so this applies to every send after they return. -/
theorem send_on_closed_cancels (env : Env) (s : WSState) (message : List Nat)
    (opCode : Nat) (cb : Callback) (compress : Bool) (h : s.closed = true) :
    wsSend env s message opCode cb compress = (s, runCallback cb true false) ∧
    (∀ i, cb = Callback.user i →
      (wsSend env s message opCode cb compress).2 = [Event.callbackRun i true false]) ∧
    (∀ (env' : Env) (s' : WSState) code m l, ((wsClose env' s' code m l).1).closed = true) ∧
    (∀ s' : WSState, ((terminate s').1).closed = true) := by
  refine ⟨by simp [wsSend, h], ?_, ?_, ?_⟩
  · rintro i rfl
    simp [wsSend, h, runCallback]
  · intro env' s' code m l
    simp [wsClose, onEnd]
  · intro s'
    simp [terminate, onEnd]

/-- Witness for C2: a concrete closed connection; the user callback runs
cancelled and the queue stays untouched. -/
theorem send_on_closed_cancels_witness :
    wsSend env0 { s0 with closed := true } [7, 8] 2 (Callback.user 5) false =
      ({ s0 with closed := true }, [Event.callbackRun 5 true false]) :=
  (send_on_closed_cancels env0 { s0 with closed := true } [7, 8] 2 (Callback.user 5) false rfl).1

-- ===== C6 =====

theorem drain_count (q : List QMessage) (i : Nat) :
    (q.flatMap fun m => runCallback m.callback true true).count (Event.callbackRun i true true) =
      q.countP (fun m => m.callback == Callback.user i) := by
  induction q with
  | nil => rfl
  | cons m q ih =>
    rcases m with ⟨f, cb⟩
    cases cb with
    | noCallback => simpa [runCallback, List.countP_cons] using ih
    | user j =>
      by_cases hji : j = i
      · subst hji
        simpa [runCallback, List.count_cons, List.countP_cons] using ih
      · simpa [runCallback, List.count_cons, List.countP_cons, hji] using ih
    | shutdownOnDrain => simpa [runCallback, List.countP_cons] using ih

theorem drain_no_foreign (q : List QMessage) (i : Nat) (c n : Bool)
    (h : ¬(c = true ∧ n = true)) :
    Event.callbackRun i c n ∉ q.flatMap fun m => runCallback m.callback true true := by
  intro hmem
  obtain ⟨j, hj⟩ := mem_drain _ _ hmem
  cases hj
  exact h ⟨rfl, rfl⟩

/-- C6: after `onEnd` the message queue is empty and the sliding deflate
window is released; the drain invokes each pending non-null callback
exactly once, with `cancelled = true` and a null connection, and no
callback runs in any other way. -/
theorem onEnd_drains_and_releases (s : WSState) (code : Nat) :
    (onEnd s code).1.messageQueue = [] ∧
    (onEnd s code).1.slidingDeflateWindow = false ∧
    (onEnd s code).2 =
      [Event.removedFromGroup, Event.disconnection code, Event.socketClosed] ++
        s.messageQueue.flatMap (fun m => runCallback m.callback true true) ∧
    (∀ i, (onEnd s code).2.count (Event.callbackRun i true true) =
      s.messageQueue.countP (fun m => m.callback == Callback.user i)) ∧
    (∀ i c n, ¬(c = true ∧ n = true) → Event.callbackRun i c n ∉ (onEnd s code).2) := by
  have h3 : (onEnd s code).2 =
      [Event.removedFromGroup, Event.disconnection code, Event.socketClosed] ++
        s.messageQueue.flatMap (fun m => runCallback m.callback true true) := rfl
  refine ⟨rfl, rfl, h3, ?_, ?_⟩
  · intro i
    rw [h3]
    simpa [List.count_append, List.count_cons] using drain_count s.messageQueue i
  · intro i c n h hmem
    rw [h3] at hmem
    rcases List.mem_append.mp hmem with h1 | h1
    · simp at h1
    · exact drain_no_foreign _ i c n h h1

end UWS

namespace UWS

-- ===== formatMessage lemmas =====

theorem formatMessage_drop (src : List Nat) (opCode : Nat) (c : Bool) :
    (formatMessage src src.length opCode c).drop (headerLength src.length) = src := by
  unfold formatMessage headerLength
  by_cases h1 : src.length < 126
  · simp [h1]
  · by_cases h2 : src.length < 65536 <;> simp [h1, h2]

theorem formatMessage_rsv1_set (src : List Nat) (length opCode : Nat) (hop3 : opCode < 3) :
    ((formatMessage src length opCode true).getD 0 0).testBit 6 = true := by
  have hb : (formatMessage src length opCode true).getD 0 0 = 192 + opCode := by
    simp [formatMessage, hop3]
  rw [hb]
  simp only [Nat.testBit_to_div_mod, decide_eq_true_eq]
  omega

theorem formatMessage_rsv1_clear (src : List Nat) (length opCode : Nat) (hop : opCode < 16) :
    ((formatMessage src length opCode false).getD 0 0).testBit 6 = false := by
  have hb : (formatMessage src length opCode false).getD 0 0 = 128 + opCode := by
    simp [formatMessage]
  rw [hb]
  simp only [Nat.testBit_to_div_mod, decide_eq_false_iff_not]
  omega

-- ===== C3 =====

/-- C3: the frame `send` hands to the write path carries RSV1 and a
deflated payload exactly when compression was requested, the connection
has compression ENABLED, and the opcode is a data opcode (< 3); in every
other case the frame holds the original payload with RSV1 clear. -/
theorem send_deflates_iff_enabled (env : Env) (s : WSState) (message : List Nat)
    (opCode : Nat) (cb : Callback) (compress : Bool)
    (hcl : s.closed = false) (hop : opCode < 16) (frame : List Nat)
    (hf : frame = wsTransform env message opCode
      (decide (compress = true ∧ s.compressionStatus = CompressionStatus.ENABLED ∧ opCode < 3))) :
    (wsSend env s message opCode cb compress).2.head? = some (Event.frameOut frame) ∧
    ((compress = true ∧ s.compressionStatus = CompressionStatus.ENABLED ∧ opCode < 3) →
      frame = formatMessage (env.deflate message) (env.deflate message).length opCode true ∧
      ((frame.getD 0 0).testBit 6 = true ∧
       frame.drop (headerLength (env.deflate message).length) = env.deflate message)) ∧
    (¬(compress = true ∧ s.compressionStatus = CompressionStatus.ENABLED ∧ opCode < 3) →
      frame = formatMessage message message.length opCode false ∧
      ((frame.getD 0 0).testBit 6 = false ∧
       frame.drop (headerLength message.length) = message)) := by
  refine ⟨?_, ?_, ?_⟩
  · subst hf
    by_cases hd : env.syncDrain <;> simp [wsSend, hcl, hd]
  · intro hP
    have hdec : decide (compress = true ∧ s.compressionStatus = CompressionStatus.ENABLED ∧
        opCode < 3) = true := decide_eq_true hP
    rw [hdec] at hf
    subst hf
    refine ⟨by simp [wsTransform], ?_, ?_⟩
    · simp only [wsTransform, if_true]
      exact formatMessage_rsv1_set _ _ _ hP.2.2
    · simp only [wsTransform, if_true]
      exact formatMessage_drop _ _ _
  · intro hP
    have hdec : decide (compress = true ∧ s.compressionStatus = CompressionStatus.ENABLED ∧
        opCode < 3) = false := decide_eq_false hP
    rw [hdec] at hf
    subst hf
    refine ⟨by simp [wsTransform], ?_, ?_⟩
    · simp only [wsTransform, if_false]
      exact formatMessage_rsv1_clear _ _ _ hop
    · simp only [wsTransform, if_false]
      exact formatMessage_drop _ _ _

/-- Witness for C3 at a concrete live compressing connection: the
compressed frame for payload [1, 2] under the doubling environment. -/
theorem send_deflates_iff_enabled_witness :
    (wsSend env0 s0 [1, 2] 2 Callback.noCallback true).2.head? =
      some (Event.frameOut [194, 3, 0, 1, 2]) ∧
    [194, 3, 0, 1, 2] = formatMessage (env0.deflate [1, 2]) (env0.deflate [1, 2]).length 2 true ∧
    (([194, 3, 0, 1, 2] : List Nat).getD 0 0).testBit 6 = true := by
  have h := send_deflates_iff_enabled env0 s0 [1, 2] 2 Callback.noCallback true rfl
    (by decide) [194, 3, 0, 1, 2] (by decide)
  refine ⟨h.1, ?_, ?_⟩
  · exact (h.2.1 (by decide)).1
  · exact (h.2.1 (by decide)).2.1

-- ===== C5 =====

/-- C5: close clamps the reason length to 123, sets `shuttingDown`, sends
a CLOSE frame over the formatted close payload with the shutdown-on-drain
completion callback — a callback that half-closes the socket exactly when
not cancelled — and then immediately, without waiting for the peer, runs
the `onEnd` sequence: removal from the group, `disconnectionHandler` with
the close code, socket close, cancellation of all pending messages, and
release of the sliding deflate window. -/
theorem close_active_sequence (env : Env) (s : WSState) (code : Nat)
    (message : List Nat) (length : Nat) (hcl : s.closed = false) :
    (wsClose env s code message length).1.shuttingDown = true ∧
    (wsClose env s code message length).1.closed = true ∧
    (wsClose env s code message length).1.messageQueue = [] ∧
    (wsClose env s code message length).1.slidingDeflateWindow = false ∧
    (wsClose env s code message length).2 =
      Event.frameOut (formatMessage (formatClosePayload code message (min 123 length))
          (formatClosePayload code message (min 123 length)).length 8 false) ::
        ((if env.syncDrain then [Event.socketShutdown] else []) ++
         [Event.removedFromGroup, Event.disconnection code, Event.socketClosed] ++
         s.messageQueue.flatMap (fun m => runCallback m.callback true true)) ∧
    (∀ n, runCallback Callback.shutdownOnDrain false n = [Event.socketShutdown]) ∧
    (∀ n, runCallback Callback.shutdownOnDrain true n = []) := by
  by_cases hd : env.syncDrain <;>
    simp [wsClose, wsSend, onEnd, wsTransform, hcl, hd, runCallback, List.flatMap_append]

/-- Witness for C5: a concrete close(1000, "bye") on a live connection
with one pending user message and asynchronous drain. -/
theorem close_active_sequence_witness :
    (wsClose env0q { s0 with messageQueue := [⟨[9], Callback.user 7⟩] } 1000
        (strBytes "bye") 3).2 =
      [Event.frameOut [136, 5, 3, 232, 98, 121, 101], Event.removedFromGroup,
       Event.disconnection 1000, Event.socketClosed, Event.callbackRun 7 true true] := by
  have h := close_active_sequence env0q { s0 with messageQueue := [⟨[9], Callback.user 7⟩] }
    1000 (strBytes "bye") 3 rfl
  rw [h.2.2.2.2.1]
  decide

end UWS

namespace UWS

theorem message_not_in_runCallback (cb : Callback) (c n : Bool) (d : List Nat) (l oc : Nat) :
    Event.message d l oc ∉ runCallback cb c n := by
  cases cb <;> simp [runCallback]

theorem message_not_in_forceClose (s : WSState) (d : List Nat) (l oc : Nat) :
    Event.message d l oc ∉ (forceClose s).2 := by
  intro h
  have hfc : (forceClose s).2 = Event.forceClosed ::
      ([Event.removedFromGroup, Event.disconnection 1006, Event.socketClosed] ++
        s.messageQueue.flatMap (fun m => runCallback m.callback true true)) := rfl
  rw [hfc] at h
  rcases List.mem_cons.mp h with h1 | h1
  · cases h1
  · rcases List.mem_append.mp h1 with h2 | h2
    · simp at h2
    · exact message_not_in_drain _ _ _ _ h2

/-- C1: on the fast path (single complete slice, empty fragment buffer,
data opcode) `handleFragment` delivers without buffering: a compressed
frame first moves `compressionStatus` to ENABLED and inflates under
`maxPayload`, force-closing on failure; a TEXT payload failing UTF-8
validation force-closes with no `messageHandler` call; otherwise the
(possibly inflated) payload is dispatched to `messageHandler` with its
length and the opcode. -/
theorem handleFragment_fast_path (env : Env) (s : WSState) (data : List Nat) (opCode : Nat)
    (hop : opCode < 3) (hbuf : s.fragmentBuffer = [])
    (r : HFResult) (hr : r = handleFragment env s data 0 opCode true) :
    ((s.compressionStatus = CompressionStatus.COMPRESSED_FRAME ∧
        env.inflate data env.maxPayload = none) →
      r.stop = true ∧ Event.forceClosed ∈ r.trace ∧
      r.s.compressionStatus = CompressionStatus.ENABLED ∧
      ∀ d l oc, Event.message d l oc ∉ r.trace) ∧
    ((s.compressionStatus ≠ CompressionStatus.COMPRESSED_FRAME ∧ opCode = 1 ∧
        env.isValidUtf8 data = false) →
      r.stop = true ∧ Event.forceClosed ∈ r.trace ∧
      ∀ d l oc, Event.message d l oc ∉ r.trace) ∧
    (∀ d', (s.compressionStatus = CompressionStatus.COMPRESSED_FRAME ∧
        env.inflate data env.maxPayload = some d' ∧ opCode = 1 ∧
        env.isValidUtf8 d' = false) →
      r.stop = true ∧ Event.forceClosed ∈ r.trace ∧
      ∀ d l oc, Event.message d l oc ∉ r.trace) ∧
    ((s.compressionStatus ≠ CompressionStatus.COMPRESSED_FRAME ∧
        (opCode = 1 → env.isValidUtf8 data = true)) →
      Event.message data data.length opCode ∈ r.trace) ∧
    (∀ d', (s.compressionStatus = CompressionStatus.COMPRESSED_FRAME ∧
        env.inflate data env.maxPayload = some d' ∧
        (opCode = 1 → env.isValidUtf8 d' = true)) →
      Event.message d' d'.length opCode ∈ r.trace ∧
      r.s.compressionStatus = CompressionStatus.ENABLED) := by
  subst hr
  have hnm : ∀ (s' : WSState) (buf : List Nat) (n : Nat) (d : List Nat) (l oc : Nat),
      Event.message d l oc ∉ Event.inflateCall buf n :: (forceClose s').2 := by
    intro s' buf n d l oc h
    rcases List.mem_cons.mp h with h1 | h1
    · cases h1
    · exact message_not_in_forceClose _ _ _ _ h1
  refine ⟨?_, ?_, ?_, ?_, ?_⟩
  · rintro ⟨hC, hI⟩
    simp [handleFragment, hop, hbuf, hC, hI, forceClose, terminate, onEnd,
      message_not_in_drain, message_not_in_runCallback]
  · rintro ⟨hC, hop1, hU⟩
    simp [handleFragment, hop, hbuf, hC, hop1, hU, dispatchMessage, forceClose,
      terminate, onEnd, message_not_in_drain, message_not_in_runCallback]
  · rintro d' ⟨hC, hI, hop1, hU⟩
    simp [handleFragment, hop, hbuf, hC, hI, hop1, hU, dispatchMessage, forceClose,
      terminate, onEnd, message_not_in_drain, message_not_in_runCallback]
  · rintro ⟨hC, hU⟩
    by_cases h1 : opCode = 1
    · rcases Decidable.em (s.closed = true ∨ s.shuttingDown = true) with h2 | h2 <;>
        simp [handleFragment, hop, hbuf, hC, h1, hU h1, dispatchMessage, h2]
    · rcases Decidable.em (s.closed = true ∨ s.shuttingDown = true) with h2 | h2 <;>
        simp [handleFragment, hop, hbuf, hC, h1, dispatchMessage, h2]
  · rintro d' ⟨hC, hI, hU⟩
    by_cases h1 : opCode = 1
    · rcases Decidable.em (s.closed = true ∨ s.shuttingDown = true) with h2 | h2 <;>
        simp [handleFragment, hop, hbuf, hC, hI, h1, hU h1, dispatchMessage, h2]
    · rcases Decidable.em (s.closed = true ∨ s.shuttingDown = true) with h2 | h2 <;>
        simp [handleFragment, hop, hbuf, hC, hI, h1, dispatchMessage, h2]

end UWS

namespace UWS

theorem take_append_pad (a b c : List Nat) :
    List.take (a.length + b.length) (a ++ (b ++ c)) = a ++ b := by
  rw [← List.append_assoc]
  exact List.take_left' (by simp)

theorem trace_if (c : Prop) [Decidable c] (a a2 : WSState) (b b2 : Bool) (t : List Event) :
    (if c then HFResult.mk a b t else HFResult.mk a2 b2 t).trace = t := by
  split <;> rfl

theorem message_not_in_wsSend (env : Env) (s : WSState) (m : List Nat) (opCode : Nat)
    (cb : Callback) (compress : Bool) (d : List Nat) (l oc : Nat) :
    Event.message d l oc ∉ (wsSend env s m opCode cb compress).2 := by
  by_cases h : s.closed = true
  · simp [wsSend, h, message_not_in_runCallback]
  · by_cases hq : env.syncDrain = true <;>
      simp [wsSend, h, hq, message_not_in_runCallback]

theorem message_not_in_onEnd (s : WSState) (code : Nat) (d : List Nat) (l oc : Nat) :
    Event.message d l oc ∉ (onEnd s code).2 := by
  intro hmem
  rcases List.mem_append.mp hmem with h | h
  · simp at h
  · exact message_not_in_drain _ _ _ _ h

theorem message_not_in_wsClose (env : Env) (s : WSState) (code : Nat)
    (m : List Nat) (len : Nat) (d : List Nat) (l oc : Nat) :
    Event.message d l oc ∉ (wsClose env s code m len).2 := by
  intro hmem
  rcases List.mem_append.mp hmem with h | h
  · exact message_not_in_wsSend _ _ _ _ _ _ _ _ _ h
  · exact message_not_in_onEnd _ _ _ _ _ h

/-- C7: whenever `handleFragment` dispatches a complete message to
`messageHandler` — on the single-slice fast path or reassembled from the
fragment buffer — the fragment buffer is empty afterwards.  Stated for a
live connection (not closed, not shutting down) since handlers are
modelled as observers. -/
theorem fragmentBuffer_empty_after_dispatch (env : Env) (s : WSState) (data : List Nat)
    (remainingBytes opCode : Nat) (fin : Bool)
    (hcl : s.closed = false) (hsh : s.shuttingDown = false)
    (d : List Nat) (l oc : Nat)
    (hm : Event.message d l oc ∈ (handleFragment env s data remainingBytes opCode fin).trace) :
    (handleFragment env s data remainingBytes opCode fin).s.fragmentBuffer = [] := by
  by_cases h1 : opCode < 3
  · by_cases hrem : remainingBytes = 0
    · by_cases hfin : fin = true
      · by_cases hlen : s.fragmentBuffer.length = 0
        · have hbuf : s.fragmentBuffer = [] := List.length_eq_zero.mp hlen
          by_cases hC : s.compressionStatus = CompressionStatus.COMPRESSED_FRAME
          · cases hInf : env.inflate data env.maxPayload with
            | none =>
              simp [handleFragment, h1, hrem, hfin, hlen, hbuf, hC, hInf, forceClose,
                terminate, onEnd]
            | some dd =>
              by_cases hT : opCode = 1 ∧ env.isValidUtf8 dd = false
              · simp [handleFragment, h1, hrem, hfin, hlen, hbuf, hC, hInf, dispatchMessage,
                  hT, forceClose, terminate, onEnd]
              · simp [handleFragment, h1, hrem, hfin, hlen, hbuf, hC, hInf, dispatchMessage,
                  hT, hcl, hsh]
          · by_cases hT : opCode = 1 ∧ env.isValidUtf8 data = false
            · simp [handleFragment, h1, hrem, hfin, hlen, hbuf, hC, hT, dispatchMessage,
                forceClose, terminate, onEnd]
            · simp [handleFragment, h1, hrem, hfin, hlen, hbuf, hC, hT, dispatchMessage,
                hcl, hsh]
        · by_cases hC : s.compressionStatus = CompressionStatus.COMPRESSED_FRAME
          · cases hInf : env.inflate (s.fragmentBuffer ++ data) env.maxPayload with
            | none =>
              exfalso
              revert hm
              simp [handleFragment, h1, hrem, hfin, hlen, hC, hInf, take_append_pad,
                forceClose, terminate, onEnd, message_not_in_drain,
                message_not_in_runCallback]
            | some dd =>
              by_cases hT : opCode = 1 ∧ env.isValidUtf8 dd = false
              · exfalso
                revert hm
                simp [handleFragment, h1, hrem, hfin, hlen, hC, hInf, take_append_pad,
                  dispatchMessage, hT, forceClose, terminate, onEnd, message_not_in_drain,
                  message_not_in_runCallback]
              · simp [handleFragment, h1, hrem, hfin, hlen, hC, hInf, take_append_pad,
                  dispatchMessage, hT, hcl, hsh]
          · by_cases hT : opCode = 1 ∧ env.isValidUtf8 (s.fragmentBuffer ++ data) = false
            · exfalso
              revert hm
              simp [handleFragment, h1, hrem, hfin, hlen, hC, hT, dispatchMessage,
                forceClose, terminate, onEnd, message_not_in_drain,
                message_not_in_runCallback]
            · simp [handleFragment, h1, hrem, hfin, hlen, hC, hT, dispatchMessage, hcl, hsh]
      · exfalso
        revert hm
        simp [handleFragment, h1, hrem, hfin]
    · exfalso
      revert hm
      simp [handleFragment, h1, hrem]
  · exfalso
    revert hm
    by_cases h2 : remainingBytes = 0 ∧ fin = true ∧ s.controlTipLength = 0
    · rcases h2 with ⟨hrem, hfin, hctl⟩
      by_cases h8 : opCode = 8
      · simp [handleFragment, h1, hrem, hfin, hctl, h8, message_not_in_wsClose]
      · by_cases h9 : opCode = 9
        · simp [handleFragment, h1, hrem, hfin, hctl, h8, h9, trace_if,
            message_not_in_wsSend]
        · by_cases h10 : opCode = 10
          · simp [handleFragment, h1, hrem, hfin, hctl, h8, h9, h10, trace_if]
          · simp [handleFragment, h1, hrem, hfin, hctl, h8, h9, h10]
    · by_cases h3 : remainingBytes = 0 ∧ fin = true
      · rcases h3 with ⟨hrem, hfin⟩
        have hctl : ¬ s.controlTipLength = 0 := fun hc => h2 ⟨hrem, hfin, hc⟩
        by_cases h8 : opCode = 8
        · simp [handleFragment, h1, hrem, hfin, hctl, h8, message_not_in_wsClose]
        · by_cases h9 : opCode = 9
          · simp [handleFragment, h1, hrem, hfin, hctl, h8, h9, trace_if,
              message_not_in_wsSend]
          · by_cases h10 : opCode = 10
            · simp [handleFragment, h1, hrem, hfin, hctl, h8, h9, h10, trace_if]
            · simp [handleFragment, h1, hrem, hfin, hctl, h8, h9, h10]
      · have hno : ¬ (remainingBytes = 0 ∧ fin = true ∧ s.controlTipLength = 0) := h2
        by_cases hrem : remainingBytes = 0
        · have hfin : ¬ fin = true := fun hf => h3 ⟨hrem, hf⟩
          simp [handleFragment, h1, hrem, hfin]
        · simp [handleFragment, h1, hrem]

end UWS

namespace UWS

/-- C4 (amended): on the final frame (fin, `remainingBytes = 0`) of a
compressed message accumulated in the fragment buffer, `handleFragment`
sets `compressionStatus` back to ENABLED, appends four pad bytes (0x2E
each, the literal "....", not `00 00 FF FF`) to the fragment buffer, and
calls inflate with the buffer and the length captured *before* the pad
was appended — so the bytes handed to inflate are exactly the accumulated
payload without the pad; on inflate failure `forceClose` is called. -/
theorem buffered_inflate_excludes_pad (env : Env) (s : WSState) (data : List Nat)
    (opCode : Nat) (hop : opCode < 3)
    (hC : s.compressionStatus = CompressionStatus.COMPRESSED_FRAME)
    (hbuf : s.fragmentBuffer ≠ [])
    (r : HFResult) (hr : r = handleFragment env s data 0 opCode true) :
    Event.inflateCall (s.fragmentBuffer ++ data ++ [46, 46, 46, 46])
        (s.fragmentBuffer ++ data).length ∈ r.trace ∧
    (s.fragmentBuffer ++ data ++ [46, 46, 46, 46]).take (s.fragmentBuffer ++ data).length =
      s.fragmentBuffer ++ data ∧
    r.s.compressionStatus = CompressionStatus.ENABLED ∧
    (env.inflate (s.fragmentBuffer ++ data) env.maxPayload = none →
      r.stop = true ∧ Event.forceClosed ∈ r.trace) := by
  subst hr
  have hlen : ¬ s.fragmentBuffer.length = 0 := fun h => hbuf (List.length_eq_zero.mp h)
  have htake : (s.fragmentBuffer ++ data ++ [46, 46, 46, 46]).take
      (s.fragmentBuffer ++ data).length = s.fragmentBuffer ++ data := by
    rw [List.append_assoc, List.length_append]
    exact take_append_pad _ _ _
  cases hInf : env.inflate (s.fragmentBuffer ++ data) env.maxPayload with
  | none =>
    refine ⟨?_, htake, ?_, ?_⟩ <;>
      simp [handleFragment, hop, hlen, hC, hInf, take_append_pad, forceClose, terminate,
        onEnd]
  | some dd =>
    by_cases hT : opCode = 1 ∧ env.isValidUtf8 dd = false
    · refine ⟨?_, htake, ?_, ?_⟩ <;>
        simp [handleFragment, hop, hlen, hC, hInf, take_append_pad, dispatchMessage, hT,
          forceClose, terminate, onEnd]
    · rcases Decidable.em (s.closed = true ∨ s.shuttingDown = true) with hq | hq <;>
        (refine ⟨?_, htake, ?_, ?_⟩ <;>
          simp [handleFragment, hop, hlen, hC, hInf, take_append_pad, dispatchMessage, hT,
            hq])

/-- Witness for C4 (amended): the concrete buffered message [65] ++ [66];
the buffer handed over holds the pad, the length does not cover it, and
with an always-failing inflate the connection is force-closed. -/
theorem buffered_inflate_excludes_pad_witness :
    Event.inflateCall [65, 66, 46, 46, 46, 46] 2 ∈
      (handleFragment envInflateFail
        { s0 with compressionStatus := CompressionStatus.COMPRESSED_FRAME,
                  fragmentBuffer := [65] } [66] 0 0 true).trace ∧
    (handleFragment envInflateFail
        { s0 with compressionStatus := CompressionStatus.COMPRESSED_FRAME,
                  fragmentBuffer := [65] } [66] 0 0 true).stop = true := by
  have h := buffered_inflate_excludes_pad envInflateFail
    { s0 with compressionStatus := CompressionStatus.COMPRESSED_FRAME,
              fragmentBuffer := [65] } [66] 0 (by decide) rfl (by decide) _ rfl
  exact ⟨h.1, (h.2.2.2 rfl).1⟩

/-- Counterexample to C4 as stated: under an inflate that fails exactly
when its input ends with the four pad bytes, the buffered compressed
message [65] ++ [66] is inflated *successfully* and dispatched — no
forceClose — although the claim says the bytes handed to inflate are the
accumulated payload followed by the four trailer bytes (which this
inflate would reject).  The recorded call shows the buffer holding the
pad but the consumed length 2 stopping before it. -/
theorem buffered_inflate_pad_counterexample :
    (handleFragment padRejectingEnv
        { s0 with compressionStatus := CompressionStatus.COMPRESSED_FRAME,
                  fragmentBuffer := [65] } [66] 0 0 true).trace =
      [Event.inflateCall [65, 66, 46, 46, 46, 46] 2, Event.message [65, 66] 2 0] ∧
    Event.forceClosed ∉
      (handleFragment padRejectingEnv
        { s0 with compressionStatus := CompressionStatus.COMPRESSED_FRAME,
                  fragmentBuffer := [65] } [66] 0 0 true).trace ∧
    padRejectingEnv.inflate ([65, 66] ++ [46, 46, 46, 46]) padRejectingEnv.maxPayload =
      none ∧
    ([65, 66, 46, 46, 46, 46] : List Nat).take 2 = [65, 66] := by decide

/-- C9: a complete PING — handled directly, or accumulated as a control
tip between data fragments — first sends a PONG frame echoing the PING
payload and then invokes pingHandler with that same payload; in the
accumulated case the fragment buffer is shrunk back by `controlTipLength`
(preserving the data fragments for the later message dispatch) and
`controlTipLength` resets to 0. -/
theorem ping_pong_echo (env : Env) (s : WSState) (p p1 p2 : List Nat) (r : Nat)
    (hcl : s.closed = false) (hsh : s.shuttingDown = false)
    (hct : s.controlTipLength = 0) (hr : 0 < r) (hp1 : p1 ≠ []) :
    ((handleFragment env s p 0 9 true).trace =
        [Event.frameOut (formatMessage p p.length 10 false), Event.ping p] ∧
      (handleFragment env s p 0 9 true).stop = false ∧
      (handleFragment env s p 0 9 true).s.fragmentBuffer = s.fragmentBuffer ∧
      (handleFragment env s p 0 9 true).s.controlTipLength = 0) ∧
    ((handleFragment env s p1 r 9 true).trace = [] ∧
      (handleFragment env s p1 r 9 true).stop = false ∧
      (handleFragment env s p1 r 9 true).s.fragmentBuffer = s.fragmentBuffer ++ p1 ∧
      (handleFragment env s p1 r 9 true).s.controlTipLength = p1.length ∧
      (handleFragment env (handleFragment env s p1 r 9 true).s p2 0 9 true).trace =
        [Event.frameOut (formatMessage (p1 ++ p2) (p1 ++ p2).length 10 false),
         Event.ping (p1 ++ p2)] ∧
      (handleFragment env (handleFragment env s p1 r 9 true).s p2 0 9 true).stop = false ∧
      (handleFragment env (handleFragment env s p1 r 9 true).s p2 0 9 true).s.fragmentBuffer =
        s.fragmentBuffer ∧
      (handleFragment env (handleFragment env s p1 r 9 true).s p2 0 9 true).s.controlTipLength =
        0) := by
  have hr0 : ¬ r = 0 := by omega
  have hp1l : ¬ p1.length = 0 := fun h => hp1 (List.length_eq_zero.mp h)
  have hb1 : handleFragment env s p1 r 9 true =
      ⟨{ s with fragmentBuffer := s.fragmentBuffer ++ p1,
                controlTipLength := s.controlTipLength + p1.length }, false, []⟩ := by
    simp [handleFragment, hr0]
  have hidx : s.fragmentBuffer.length + p1.length + p2.length - (p1.length + p2.length) =
      s.fragmentBuffer.length := by omega
  constructor
  · by_cases hq : env.syncDrain = true <;>
      simp [handleFragment, hct, hcl, hsh, wsSend, wsTransform, runCallback, hq]
  · rw [hb1]
    refine ⟨rfl, rfl, rfl, by simp [hct], ?_⟩
    by_cases hq : env.syncDrain = true <;>
      simp [handleFragment, hct, hcl, hsh, hp1l, wsSend, wsTransform, runCallback, hq,
        hidx, shrinkControlTip, List.drop_left, List.take_left, List.append_assoc]

end UWS

namespace UWS

theorem upgrade_head_merge :
    strBytes "HTTP/1.1 101 Switching Protocols" ++ strBytes "\r\n" ++
      strBytes "Upgrade: websocket" ++ strBytes "\r\n" ++
      strBytes "Connection: Upgrade" ++ strBytes "\r\n" ++
      strBytes "Sec-WebSocket-Accept: " =
    strBytes "HTTP/1.1 101 Switching Protocols\r\nUpgrade: websocket\r\nConnection: Upgrade\r\nSec-WebSocket-Accept: " := by
  decide

theorem upgrade_tail_merge :
    strBytes "Sec-WebSocket-Version: 13" ++ strBytes "\r\n" ++
      strBytes "WebSocket-Server: uWebSockets" ++ strBytes "\r\n" ++ strBytes "\r\n" =
    strBytes "Sec-WebSocket-Version: 13\r\nWebSocket-Server: uWebSockets\r\n\r\n" := by
  decide

theorem base64_length (x : List Nat) : (base64 x).length = 28 := by
  simp [base64, Function.comp, List.range_succ]

set_option maxRecDepth 10000 in
/-- C8 (amended): the queued upgrade response consists exactly of the
status line and Upgrade/Connection headers, a Sec-WebSocket-Accept header
whose value is the 28-character base64 of SHA1 over the 24 key bytes and
the GUID, a Sec-WebSocket-Extensions header when the response is nonempty
and shorter than 200 bytes, a Sec-WebSocket-Protocol header echoing the
first comma-delimited token when that token is nonempty and shorter than
200 bytes, then Sec-WebSocket-Version: 13, the server identification
line, and a blank line; the sample key dGhlIHNhbXBsZSBub25jZQ== yields
accept value s3pPLMBiTxaQ9kYGzzhZRbK+xOo=. -/
theorem upgrade_layout (secKey extensionsResponse subprotocol : List Nat) :
    upgrade secKey extensionsResponse subprotocol =
      upgradeSpecC8 secKey extensionsResponse subprotocol ∧
    (secWebSocketAccept secKey).length = 28 ∧
    secWebSocketAccept (strBytes "dGhlIHNhbXBsZSBub25jZQ==") =
      strBytes "s3pPLMBiTxaQ9kYGzzhZRbK+xOo=" := by
  refine ⟨?_, base64_length _, ?_⟩
  · unfold upgrade upgradeSpecC8
    rw [upgrade_head_merge, upgrade_tail_merge]
  · decide

set_option maxRecDepth 10000 in
/-- Counterexample to C8 as stated: offering a single 200-byte subprotocol
token is offering a subprotocol list, yet the source emits no
Sec-WebSocket-Protocol header (the condition at line 333 also requires
the selected token to be shorter than 200 bytes), so the response differs
from the layout the claim describes. -/
theorem upgrade_subprotocol_dropped :
    upgrade (strBytes "dGhlIHNhbXBsZSBub25jZQ==") [] (List.replicate 200 97) ≠
      upgradeClaimC8 (strBytes "dGhlIHNhbXBsZSBub25jZQ==") [] (List.replicate 200 97) ∧
    List.replicate 200 97 ≠ ([] : List Nat) := by
  decide

/-- Witness for C1: a concrete single-slice compressed TEXT frame on the
fast path under the doubling environment. -/
theorem handleFragment_fast_path_witness :
    Event.message [65, 65] 2 1 ∈
      (handleFragment env0 { s0 with compressionStatus := CompressionStatus.COMPRESSED_FRAME }
        [65] 0 1 true).trace ∧
    (handleFragment env0 { s0 with compressionStatus := CompressionStatus.COMPRESSED_FRAME }
        [65] 0 1 true).s.compressionStatus = CompressionStatus.ENABLED :=
  (handleFragment_fast_path env0
    { s0 with compressionStatus := CompressionStatus.COMPRESSED_FRAME } [65] 1
    (by decide) rfl _ rfl).2.2.2.2 [65, 65] ⟨rfl, rfl, fun _ => by decide⟩

/-- Witness for C7: the reassembled dispatch of "ABCD" ++ "EF" leaves the
fragment buffer empty. -/
theorem fragmentBuffer_empty_after_dispatch_witness :
    (handleFragment env0 { s0 with fragmentBuffer := [65, 66, 67, 68] } [69, 70] 0 0
      true).s.fragmentBuffer = [] :=
  fragmentBuffer_empty_after_dispatch env0 { s0 with fragmentBuffer := [65, 66, 67, 68] }
    [69, 70] 0 0 true rfl rfl [65, 66, 67, 68, 69, 70] 6 0 (by decide)

/-- Witness for C9: a direct PING "x" while fragments [65, 66] are
buffered echoes the PONG frame and preserves the buffer. -/
theorem ping_pong_echo_witness :
    (handleFragment env0 { s0 with fragmentBuffer := [65, 66] } [120] 0 9 true).trace =
      [Event.frameOut [138, 1, 120], Event.ping [120]] ∧
    (handleFragment env0 { s0 with fragmentBuffer := [65, 66] } [120] 0 9
      true).s.fragmentBuffer = [65, 66] := by
  have h := ping_pong_echo env0 { s0 with fragmentBuffer := [65, 66] } [120] [120] [121] 1
    rfl rfl rfl (by decide) (by decide)
  refine ⟨?_, h.1.2.2.1⟩
  rw [h.1.1]
  decide

end UWS
